import Mathlib

/-!
Shallow embedding of the zuspec-fe-sv lowering pass (SystemVerilog → Zuspec IR).

Source files embedded:
  src/zuspec/fe/sv/error.py          (ErrorSeverity, TranslationError, ErrorReporter)
  src/zuspec/fe/sv/config.py         (SVToZuspecConfig)
  src/zuspec/fe/sv/type_mapper.py    (TypeMapper)
  src/zuspec/fe/sv/expr_mapper.py    (ExprMapper)
  src/zuspec/fe/sv/stmt_mapper.py    (StmtMapper)
  src/zuspec/fe/sv/function_mapper.py (FunctionMapper)
  src/zuspec/fe/sv/class_mapper.py   (ClassMapper)
  src/zuspec/fe/sv/mapper.py         (SVMapper)

Modelling conventions:
  * The stateful `ErrorReporter` (a growing list of diagnostics) is modelled by
    explicit state passing: each lowering function returns, besides its value,
    the list of diagnostics it appended, in append order.  Composition is list
    concatenation, which matches the sequential appends of the Python code.
  * Python `None` results become `Option.none`.
  * The opaque pyslang syntax objects are modelled by inductive types carrying
    exactly the attributes the mappers read; an attribute guarded by `hasattr`
    in the source is an `Option` field (`none` = attribute missing).
  * The `try/except` wrappers in the source convert unexpected exceptions into
    diagnostics; none of the embedded accessors can fail, so those handler
    branches are unreachable and are not modelled.
  * Python's truthiness tests on mapper results (`if mapped:`) are modelled by
    `Option` matches; IR dataclass instances are always truthy, and an empty
    list result is falsy but is only ever skipped where extending by the empty
    list is equivalent.
-/

/-! ## Python string primitives

The mappers use a handful of Python string operations (`str.lower`,
`str.strip`, `'[' in s`, `s.split('[')[0]`, `'Task' in s`, `int(s)`).
They are embedded over `String.data` character lists so that concrete
instances reduce inside the kernel. -/

/-- Python `str.lower()` (ASCII case folding, which covers every name the
mappers compare). -/
def pyLower (s : String) : String := String.mk (s.data.map Char.toLower)

/-- Python `str.strip()`: remove leading and trailing whitespace. -/
def pyStrip (s : String) : String :=
  String.mk (((s.data.dropWhile Char.isWhitespace).reverse.dropWhile Char.isWhitespace).reverse)

/-- Python `c in s` for a single character `c`. -/
def strHasChar (s : String) (c : Char) : Bool := s.data.contains c

/-- Python `s.split(c)[0]`: the part of `s` before the first occurrence of
`c` (all of `s` when `c` does not occur). -/
def takeBefore (s : String) (c : Char) : String :=
  String.mk (s.data.takeWhile (fun ch => ch != c))

/-- Whether `pat` occurs as a contiguous sublist of the second list. -/
def listHasSub (pat : List Char) : List Char → Bool
  | [] => pat.isEmpty
  | c :: t => pat.isPrefixOf (c :: t) || listHasSub pat t

/-- Python `pat in s` (substring containment). -/
def pyInStr (pat s : String) : Bool := listHasSub pat.data s.data

/-- Helper for `pyInt?`: accumulate a decimal digit string; `none` on any
non-digit character. -/
def digitsToNatAux (acc : Nat) : List Char → Option Nat
  | [] => some acc
  | c :: t => if c.isDigit then digitsToNatAux (acc * 10 + (c.toNat - 48)) t else none

/-- Python `int(s)` on an optionally signed decimal string (whitespace
stripped, `none` on failure).  Underscore digit separators, which Python
also accepts, are not modelled; no mapper behaviour proved here depends on
which exact strings parse. -/
def pyInt? (s : String) : Option Int :=
  match (pyStrip s).data with
  | [] => none
  | c :: rest =>
    if c = '-' then
      match rest with
      | [] => none
      | _ => (digitsToNatAux 0 rest).map (fun n => -(n : Int))
    else if c = '+' then
      match rest with
      | [] => none
      | _ => (digitsToNatAux 0 rest).map (fun n => (n : Int))
    else
      (digitsToNatAux 0 (c :: rest)).map (fun n => (n : Int))

/-! ## error.py -/

/-- `ErrorSeverity` from error.py. -/
inductive ErrorSeverity where
  | WARNING
  | ERROR
deriving DecidableEq, Repr

/-- `TranslationError` dataclass from error.py. -/
structure TranslationError where
  severity : ErrorSeverity
  message : String
  file_path : Option String
  line : Option Nat
  column : Option Nat
  context : Option String
  suggestion : Option String
deriving DecidableEq, Repr

namespace ErrorReporter

/-- `ErrorReporter.error` from error.py: the diagnostic record appended for an
error-severity report. -/
def error (message : String) (file_path : Option String) (line : Option Nat)
    (column : Option Nat) (context : Option String) (suggestion : Option String) :
    TranslationError :=
  { severity := ErrorSeverity.ERROR, message := message, file_path := file_path,
    line := line, column := column, context := context, suggestion := suggestion }

/-- `ErrorReporter.warning` from error.py: the diagnostic record appended for a
warning-severity report. -/
def warning (message : String) (file_path : Option String) (line : Option Nat)
    (column : Option Nat) (context : Option String) (suggestion : Option String) :
    TranslationError :=
  { severity := ErrorSeverity.WARNING, message := message, file_path := file_path,
    line := line, column := column, context := context, suggestion := suggestion }

/-- `ErrorReporter.has_errors` from error.py:
`any(e.severity == ErrorSeverity.ERROR for e in self.errors)`. -/
def has_errors (errors : List TranslationError) : Bool :=
  errors.any (fun e => decide (e.severity = ErrorSeverity.ERROR))

/-- `ErrorReporter.clear` from error.py: `self.errors.clear()`. -/
def clear (_errors : List TranslationError) : List TranslationError := []

end ErrorReporter

/-! ## config.py -/

/-- `SVToZuspecConfig` from config.py. -/
structure SVToZuspecConfig where
  strict_mode : Bool
  ignore_covergroups : Bool
  ignore_assertions : Bool
  ignore_list : List String
  warn_only : Bool
deriving DecidableEq, Repr

/-- The dataclass defaults of `SVToZuspecConfig`. -/
def SVToZuspecConfig.default : SVToZuspecConfig :=
  { strict_mode := true, ignore_covergroups := true, ignore_assertions := false,
    ignore_list := [], warn_only := false }

/-! ## IR data model (zuspec-dataclasses, external to this repository;
only the shape used by the mappers is embedded) -/

/-- `DataTypeInt` from the zuspec IR: a fixed-width integer type. -/
structure DataTypeInt where
  bits : Nat
  signed : Bool
deriving DecidableEq, Repr

/-! ## type_mapper.py -/

namespace TypeMapper

/-- `TypeMapper._suggest_2state_replacement` from type_mapper.py. -/
def suggest_2state_replacement (type_name : String) : String :=
  if type_name = "logic" then "Use 2-state type: bit"
  else if type_name = "reg" then "Use 2-state type: bit"
  else if type_name = "integer" then "Use 2-state type: int"
  else "Use a 2-state type (bit, int, byte, etc.)"

/-- `TypeMapper.map_builtin_type` from type_mapper.py.  Returns the produced
type (if any) together with the diagnostics appended to the reporter.
The `config` argument models `self.config`, which the method never reads. -/
def map_builtin_type (_config : SVToZuspecConfig) (type_name : String)
    (width : Option Nat) (signed : Option Bool) (file_path : Option String)
    (line : Option Nat) (column : Option Nat) :
    Option DataTypeInt × List TranslationError :=
  let type_name_lower := pyLower type_name
  -- Check for 4-state types (always error)
  if type_name_lower = "logic" ∨ type_name_lower = "reg" ∨ type_name_lower = "integer" then
    (none,
     [ErrorReporter.error ("4-state type \x27" ++ type_name ++ "\x27 not supported")
        file_path line column (some type_name)
        (some (suggest_2state_replacement type_name_lower))])
  -- Map 2-state types
  else if type_name_lower = "bit" then
    (some { bits := width.getD 1, signed := signed.getD false }, [])
  else if type_name_lower = "byte" then
    (some { bits := 8, signed := true }, [])
  else if type_name_lower = "shortint" then
    (some { bits := 16, signed := true }, [])
  else if type_name_lower = "int" then
    (some { bits := 32, signed := true }, [])
  else if type_name_lower = "longint" then
    (some { bits := 64, signed := true }, [])
  -- Unsupported type
  else
    (none,
     [ErrorReporter.error ("Unsupported type \x27" ++ type_name ++ "\x27")
        file_path line column none none])

/-- `TypeMapper.is_4state_type` from type_mapper.py. -/
def is_4state_type (type_name : String) : Bool :=
  pyLower type_name = "logic" ∨ pyLower type_name = "reg" ∨ pyLower type_name = "integer"

end TypeMapper

/-! ## IR expressions (zuspec-dataclasses `ir.expr`) -/

/-- `BinOp` from the zuspec IR (arithmetic/bitwise/shift operators). -/
inductive BinOp where
  | Add | Sub | Mult | Div | Mod | BitAnd | BitOr | BitXor | LShift | RShift
deriving DecidableEq, Repr

/-- `CmpOp` from the zuspec IR (comparison operators). -/
inductive CmpOp where
  | Eq | NotEq | Lt | LtE | Gt | GtE
deriving DecidableEq, Repr

/-- The operator slot of `ExprBin`: `_map_binary_operator` returns either a
`BinOp` or a `CmpOp` from the same table. -/
inductive ZBinOp where
  | arith (op : BinOp)
  | cmp (op : CmpOp)
deriving DecidableEq, Repr

/-- `UnaryOp` from the zuspec IR. -/
inductive UnaryOp where
  | Invert | Not | UAdd | USub
deriving DecidableEq, Repr

/-- The value slot of `ExprConstant` (a Python int or str). -/
inductive ConstVal where
  | intVal (i : Int)
  | strVal (s : String)
deriving DecidableEq, Repr

/-- The zuspec IR expression variants constructed by expr_mapper.py. -/
inductive Expr where
  | ExprBin (lhs : Expr) (op : ZBinOp) (rhs : Expr)
  | ExprUnary (op : UnaryOp) (operand : Expr)
  | ExprConstant (value : ConstVal)
  | ExprRefLocal (name : String)
  | ExprAttribute (value : Expr) (attr : String)
  | ExprSubscript (value : Expr) (slice : Expr)
  | ExprCall (func : Expr) (args : List Expr)

/-! ## Foreign expression nodes (pyslang, as read by expr_mapper.py)

Each constructor carries exactly the attributes the mapper reads; `Option`
fields model attributes guarded by `hasattr`. -/

mutual
inductive SvExpr where
  /-- `ExpressionKind.BinaryOp`; `op` is `none` when the node has no `op`
  attribute. -/
  | binaryOp (op : Option String) (left right : SvExpr)
  /-- `ExpressionKind.UnaryOp`. -/
  | unaryOp (op : Option String) (operand : SvExpr)
  /-- `ExpressionKind.IntegerLiteral`; `text` is `str(sv_expr)`. -/
  | integerLiteral (text : String)
  /-- `ExpressionKind.StringLiteral`; `text` is `str(sv_expr)`. -/
  | stringLiteral (text : String)
  /-- `ExpressionKind.NamedValue`; `symbolName` is the referenced symbol's
  name, `none` when the node has no `symbol` attribute. -/
  | namedValue (symbolName : Option String)
  /-- `ExpressionKind.MemberAccess`; `member` is the member's name, `none`
  when the node has no `member` attribute. -/
  | memberAccess (value : SvExpr) (member : Option String)
  /-- `ExpressionKind.ElementSelect`. -/
  | elementSelect (value selector : SvExpr)
  /-- `ExpressionKind.Call`; `subroutineName` is `none` when the node has no
  `subroutine` attribute. -/
  | call (subroutineName : Option String) (arguments : SvExprList)
  /-- `ExpressionKind.Conversion`. -/
  | conversion (operand : SvExpr)
  /-- Any other `ExpressionKind` label. -/
  | otherExpr (kind : String)

inductive SvExprList where
  | nil
  | cons (head : SvExpr) (tail : SvExprList)
end

/-! ## expr_mapper.py -/

namespace ExprMapper

/-- `ExprMapper._map_binary_operator` from expr_mapper.py: the fixed operator
table; an unknown operator reports an "Unsupported binary operator" error. -/
def map_binary_operator (op_str : String) : Option ZBinOp × List TranslationError :=
  if op_str = "BinaryOperator.Add" then (some (ZBinOp.arith BinOp.Add), [])
  else if op_str = "BinaryOperator.Subtract" then (some (ZBinOp.arith BinOp.Sub), [])
  else if op_str = "BinaryOperator.Multiply" then (some (ZBinOp.arith BinOp.Mult), [])
  else if op_str = "BinaryOperator.Divide" then (some (ZBinOp.arith BinOp.Div), [])
  else if op_str = "BinaryOperator.Mod" then (some (ZBinOp.arith BinOp.Mod), [])
  else if op_str = "BinaryOperator.BinaryAnd" then (some (ZBinOp.arith BinOp.BitAnd), [])
  else if op_str = "BinaryOperator.BinaryOr" then (some (ZBinOp.arith BinOp.BitOr), [])
  else if op_str = "BinaryOperator.BinaryXor" then (some (ZBinOp.arith BinOp.BitXor), [])
  else if op_str = "BinaryOperator.LogicalShiftLeft" then (some (ZBinOp.arith BinOp.LShift), [])
  else if op_str = "BinaryOperator.LogicalShiftRight" then (some (ZBinOp.arith BinOp.RShift), [])
  else if op_str = "BinaryOperator.Equality" then (some (ZBinOp.cmp CmpOp.Eq), [])
  else if op_str = "BinaryOperator.Inequality" then (some (ZBinOp.cmp CmpOp.NotEq), [])
  else if op_str = "BinaryOperator.LessThan" then (some (ZBinOp.cmp CmpOp.Lt), [])
  else if op_str = "BinaryOperator.LessThanEqual" then (some (ZBinOp.cmp CmpOp.LtE), [])
  else if op_str = "BinaryOperator.GreaterThan" then (some (ZBinOp.cmp CmpOp.Gt), [])
  else if op_str = "BinaryOperator.GreaterThanEqual" then (some (ZBinOp.cmp CmpOp.GtE), [])
  else
    (none, [ErrorReporter.error ("Unsupported binary operator: " ++ op_str)
              none none none none none])

/-- `ExprMapper._map_unary_operator` from expr_mapper.py. -/
def map_unary_operator (op_str : String) : Option UnaryOp × List TranslationError :=
  if op_str = "UnaryOperator.BitwiseNot" then (some UnaryOp.Invert, [])
  else if op_str = "UnaryOperator.LogicalNot" then (some UnaryOp.Not, [])
  else if op_str = "UnaryOperator.Plus" then (some UnaryOp.UAdd, [])
  else if op_str = "UnaryOperator.Minus" then (some UnaryOp.USub, [])
  else
    (none, [ErrorReporter.error ("Unsupported unary operator: " ++ op_str)
              none none none none none])

/-- `ExprMapper._map_integer_literal` from expr_mapper.py: `int(str(node))`
with a fallback to the value zero when the text does not parse (sized/radix
literals such as `32'd10`). -/
def map_integer_literal (text : String) : Option Expr × List TranslationError :=
  (some (Expr.ExprConstant (ConstVal.intVal ((pyInt? text).getD 0))), [])

/-- `ExprMapper._map_string_literal` from expr_mapper.py. -/
def map_string_literal (text : String) : Option Expr × List TranslationError :=
  (some (Expr.ExprConstant (ConstVal.strVal text)), [])

/-- `ExprMapper._map_named_value` from expr_mapper.py. -/
def map_named_value (symbolName : Option String) : Option Expr × List TranslationError :=
  match symbolName with
  | some name => (some (Expr.ExprRefLocal name), [])
  | none => (none, [ErrorReporter.error "Named value has no symbol" none none none none none])

mutual
/-- `ExprMapper.map_expression` from expr_mapper.py, with the per-kind helper
methods (`_map_binary_op`, `_map_unary_op`, `_map_member_access`,
`_map_element_select`, `_map_call`, `_map_conversion`) inlined as the match
arms they dispatch to. -/
def map_expression : SvExpr → Option Expr × List TranslationError
  -- ExprMapper._map_binary_op
  | SvExpr.binaryOp none _ _ =>
    (none, [ErrorReporter.error "Binary operation missing operator" none none none none none])
  | SvExpr.binaryOp (some op_str) left right =>
    -- Check for 4-state operators
    if op_str = "BinaryOperator.CaseEquality" ∨ op_str = "BinaryOperator.CaseInequality" ∨
       op_str = "BinaryOperator.WildcardEquality" ∨ op_str = "BinaryOperator.WildcardInequality" then
      (none, [ErrorReporter.error ("4-state operator not supported: " ++ op_str)
                none none none none (some "Use 2-state operators (==, !=)")])
    else
      match map_binary_operator op_str with
      | (none, d) => (none, d)
      | (some zuspec_op, d) =>
        let lm := map_expression left
        let rm := map_expression right
        match lm.1, rm.1 with
        | some l, some r => (some (Expr.ExprBin l zuspec_op r), d ++ lm.2 ++ rm.2)
        | _, _ => (none, d ++ lm.2 ++ rm.2)
  -- ExprMapper._map_unary_op ("if not op_str" also catches an empty label)
  | SvExpr.unaryOp op left =>
    if op.getD "" = "" then
      (none, [ErrorReporter.error "Unary operation missing operator" none none none none none])
    else
      match map_unary_operator (op.getD "") with
      | (none, d) => (none, d)
      | (some zuspec_op, d) =>
        let om := map_expression left
        match om.1 with
        | some operand => (some (Expr.ExprUnary zuspec_op operand), d ++ om.2)
        | none => (none, d ++ om.2)
  | SvExpr.integerLiteral text => map_integer_literal text
  | SvExpr.stringLiteral text => map_string_literal text
  | SvExpr.namedValue symbolName => map_named_value symbolName
  -- ExprMapper._map_member_access
  | SvExpr.memberAccess value member =>
    let vm := map_expression value
    match vm.1 with
    | none => (none, vm.2)
    | some v =>
      match member with
      | some attr => (some (Expr.ExprAttribute v attr), vm.2)
      | none =>
        (none, vm.2 ++ [ErrorReporter.error "Member access has no member name"
                          none none none none none])
  -- ExprMapper._map_element_select (the selector is only mapped after the
  -- base mapped successfully)
  | SvExpr.elementSelect value selector =>
    let vm := map_expression value
    match vm.1 with
    | none => (none, vm.2)
    | some v =>
      let sm := map_expression selector
      match sm.1 with
      | none => (none, vm.2 ++ sm.2)
      | some s => (some (Expr.ExprSubscript v s), vm.2 ++ sm.2)
  -- ExprMapper._map_call: arguments that fail to lower are skipped
  -- ("if arg_expr: args.append(arg_expr)"); the call node is still produced
  | SvExpr.call subroutineName arguments =>
    let am := map_call_args arguments
    (some (Expr.ExprCall (Expr.ExprRefLocal (subroutineName.getD "unknown")) am.1), am.2)
  -- ExprMapper._map_conversion: transparent
  | SvExpr.conversion operand => map_expression operand
  | SvExpr.otherExpr kind =>
    (none, [ErrorReporter.error ("Unsupported expression kind: " ++ kind)
              none none none none none])

/-- The argument loop of `ExprMapper._map_call`. -/
def map_call_args : SvExprList → List Expr × List TranslationError
  | SvExprList.nil => ([], [])
  | SvExprList.cons a t =>
    let m := map_expression a
    let r := map_call_args t
    ((match m.1 with | some e => [e] | none => []) ++ r.1, m.2 ++ r.2)
end

end ExprMapper

/-! ## IR statements (zuspec-dataclasses `ir.stmt`) -/

/-- The zuspec IR statement variants constructed by stmt_mapper.py. -/
inductive Stmt where
  | StmtAssign (targets : List Expr) (value : Expr)
  | StmtIf (test : Expr) (body orelse : List Stmt)
  | StmtFor (target iter : Expr) (body orelse : List Stmt)
  | StmtWhile (test : Expr) (body orelse : List Stmt)
  | StmtReturn (value : Option Expr)
  | StmtBreak
  | StmtContinue
  | StmtExpr (expr : Expr)

/-- The inner expression of an expression-statement node: either an
`ExpressionKind.Assignment` (with `hasattr`-guarded `left`/`right`) or any
other expression. -/
inductive SvStmtExpr where
  | assignment (left right : Option SvExpr)
  | plainExpr (e : SvExpr)

/-! ## Foreign statement nodes (pyslang, as read by stmt_mapper.py)

A pyslang statement container (a single statement handed to
`map_statements`, or a block/list body) is modelled as the sequence of
statements it holds (`SvStmtSeq`); a `hasattr`-guarded or possibly-`None`
body is an `Option SvStmtSeq`. -/

mutual
inductive SvStmt where
  /-- `StatementKind.ExpressionStatement`; `none` when the node has no
  `expr` attribute. -/
  | expressionStatement (expr : Option SvStmtExpr)
  /-- `StatementKind.Return`; `none` when `expr` is missing or `None`. -/
  | returnStmt (expr : Option SvExpr)
  /-- `StatementKind.Conditional`: the condition/body chain and the
  `hasattr`-guarded `elseClause`. -/
  | conditional (conditions : SvCondSeq) (elseClause : Option SvStmtSeq)
  /-- `StatementKind.ForLoop`; the header (initializers/stop/steps) is
  carried but never read by the mapper. -/
  | forLoop (header : String) (body : Option SvStmtSeq)
  /-- `StatementKind.WhileLoop` / `StatementKind.DoWhileLoop`; `cond` is
  `none` when the node has no `cond` attribute. -/
  | whileLoop (cond : Option SvExpr) (body : Option SvStmtSeq)
  /-- `StatementKind.Break`. -/
  | breakStmt
  /-- `StatementKind.Continue`. -/
  | continueStmt
  /-- `StatementKind.Block`. -/
  | block (body : Option SvStmtSeq)
  /-- `StatementKind.List`. -/
  | stmtList (list : SvStmtSeq)
  /-- Any other `StatementKind` label. -/
  | otherStmt (kind : String)

/-- The condition/body pairs of a conditional (`sv_stmt.conditions`). -/
inductive SvCondSeq where
  | nil
  | cons (expr : SvExpr) (stmt : Option SvStmtSeq) (tail : SvCondSeq)

inductive SvStmtSeq where
  | nil
  | cons (head : SvStmt) (tail : SvStmtSeq)
end

/-- Length of a foreign statement sequence. -/
def SvStmtSeq.toList : SvStmtSeq → List SvStmt
  | SvStmtSeq.nil => []
  | SvStmtSeq.cons h t => h :: SvStmtSeq.toList t

/-! ## stmt_mapper.py -/

namespace StmtMapper

/-- The result of `StmtMapper.map_statement`: a single IR statement, a list
of IR statements (from a block or statement list), or `None`. -/
abbrev StmtResult := Option (Sum Stmt (List Stmt))

mutual
/-- `StmtMapper.map_statement` from stmt_mapper.py, with the per-kind helper
methods (`_map_expression_statement`, `_map_assignment`, `_map_return`,
`_map_conditional`, `_map_for_loop`, `_map_while_loop`, `_map_block`,
`_map_statement_list`) inlined as the match arms they dispatch to. -/
def map_statement : SvStmt → StmtResult × List TranslationError
  -- StmtMapper._map_expression_statement ("if not hasattr(sv_stmt, 'expr')"
  -- returns None without a diagnostic)
  | SvStmt.expressionStatement none => (none, [])
  -- StmtMapper._map_assignment (assignment detection happens at this layer)
  | SvStmt.expressionStatement (some (SvStmtExpr.assignment left right)) =>
    (match left with
     | none =>
       (none, [ErrorReporter.error "Assignment missing left side" none none none none none])
     | some l =>
       let tm := ExprMapper.map_expression l
       match tm.1 with
       | none => (none, tm.2)
       | some target =>
         match right with
         | none =>
           (none, tm.2 ++ [ErrorReporter.error "Assignment missing right side"
                             none none none none none])
         | some r =>
           let vm := ExprMapper.map_expression r
           match vm.1 with
           | none => (none, tm.2 ++ vm.2)
           | some value => (some (Sum.inl (Stmt.StmtAssign [target] value)), tm.2 ++ vm.2))
  | SvStmt.expressionStatement (some (SvStmtExpr.plainExpr e)) =>
    let em := ExprMapper.map_expression e
    (match em.1 with
     | some ex => (some (Sum.inl (Stmt.StmtExpr ex)), em.2)
     | none => (none, em.2))
  -- StmtMapper._map_return: the return node is produced even when the value
  -- expression fails to lower (its value slot is then None)
  | SvStmt.returnStmt none => (some (Sum.inl (Stmt.StmtReturn none)), [])
  | SvStmt.returnStmt (some ex) =>
    let vm := ExprMapper.map_expression ex
    (some (Sum.inl (Stmt.StmtReturn vm.1)), vm.2)
  -- StmtMapper._map_conditional: only the first condition/body pair is used
  | SvStmt.conditional SvCondSeq.nil _ =>
    (none, [ErrorReporter.error "Conditional missing condition" none none none none none])
  | SvStmt.conditional (SvCondSeq.cons cexpr cstmt _) elseClause =>
    let tm := ExprMapper.map_expression cexpr
    (match tm.1 with
     | none => (none, tm.2)
     | some test =>
       let bm := match cstmt with
                 | none => (([] : List Stmt), ([] : List TranslationError))
                 | some s => map_statements s
       let om := match elseClause with
                 | none => (([] : List Stmt), ([] : List TranslationError))
                 | some s => map_statements s
       (some (Sum.inl (Stmt.StmtIf test bm.1 om.1)), tm.2 ++ bm.2 ++ om.2))
  -- StmtMapper._map_for_loop: placeholder target and iterable
  | SvStmt.forLoop _ body =>
    let bm := match body with
              | none => (([] : List Stmt), ([] : List TranslationError))
              | some s => map_statements s
    (some (Sum.inl (Stmt.StmtFor (Expr.ExprRefLocal "i") (Expr.ExprRefLocal "range") bm.1 [])),
     bm.2)
  -- StmtMapper._map_while_loop
  | SvStmt.whileLoop none _ =>
    (none, [ErrorReporter.error "While loop missing condition" none none none none none])
  | SvStmt.whileLoop (some c) body =>
    let tm := ExprMapper.map_expression c
    (match tm.1 with
     | none => (none, tm.2)
     | some test =>
       let bm := match body with
                 | none => (([] : List Stmt), ([] : List TranslationError))
                 | some s => map_statements s
       (some (Sum.inl (Stmt.StmtWhile test bm.1 [])), tm.2 ++ bm.2))
  | SvStmt.breakStmt => (some (Sum.inl Stmt.StmtBreak), [])
  | SvStmt.continueStmt => (some (Sum.inl Stmt.StmtContinue), [])
  -- StmtMapper._map_block: returns the (possibly empty) list of mapped
  -- statements
  | SvStmt.block body =>
    let bm := match body with
              | none => (([] : List Stmt), ([] : List TranslationError))
              | some s => map_statements s
    (some (Sum.inr bm.1), bm.2)
  -- StmtMapper._map_statement_list: iterates sv_stmt.list with the same
  -- skip/flatten logic as map_statements
  | SvStmt.stmtList l =>
    let m := map_statements l
    (some (Sum.inr m.1), m.2)
  | SvStmt.otherStmt kind =>
    (none, [ErrorReporter.error ("Unsupported statement kind: " ++ kind)
              none none none none none])

/-- `StmtMapper.map_statements` from stmt_mapper.py (the iterable branch):
per element, a list result is flattened in place (`stmts.extend`), a single
statement is appended, and a `None` result is skipped. -/
def map_statements : SvStmtSeq → List Stmt × List TranslationError
  | SvStmtSeq.nil => ([], [])
  | SvStmtSeq.cons h t =>
    let m := map_statement h
    let r := map_statements t
    ((match m.1 with
      | none => []
      | some (Sum.inl s) => [s]
      | some (Sum.inr l) => l) ++ r.1,
     m.2 ++ r.2)
end

end StmtMapper

/-! ## Foreign type objects (pyslang types, as read by class_mapper.py and
function_mapper.py) -/

/-- A pyslang type as seen by `_map_type` / `_map_return_type`: either an
`IntegralType` (with `str(...)` representation, `bitWidth`, `isSigned`) or
any other type.  Every pyslang type exposes `isFourState`. -/
inductive SvType where
  | integral (reprStr : String) (bitWidth : Nat) (isSigned : Bool) (fourState : Bool)
  | other (reprStr : String) (fourState : Bool)
deriving DecidableEq, Repr

/-- The `isFourState` attribute of a pyslang type. -/
def SvType.isFourState : SvType → Bool
  | SvType.integral _ _ _ fs => fs
  | SvType.other _ fs => fs

/-- The base-type-name extraction shared by `ClassMapper._map_type` and
`FunctionMapper._map_return_type`:
`type_str.split('[')[0].strip() if '[' in type_str else type_str`. -/
def extractTypeName (type_str : String) : String :=
  if strHasChar type_str '[' then pyStrip (takeBefore type_str '[') else type_str

/-! ## IR functions and classes (zuspec-dataclasses) -/

/-- `Arg` from the zuspec IR (`ir.stmt`): a name-only parameter record; the
mapper never attaches an annotation. -/
structure Arg where
  arg : String
  annotation : Option String
deriving DecidableEq, Repr

/-- `Arguments` from the zuspec IR (`ir.stmt`). -/
structure Arguments where
  posonlyargs : List Arg
  args : List Arg
  vararg : Option Arg
  kwonlyargs : List Arg
  kw_defaults : List (Option Expr)
  kwarg : Option Arg
  defaults : List Expr

/-- `Function` from the zuspec IR (`ir.data_type`).  Only integer return
types ever reach the `returns` slot in this core. -/
structure Function where
  name : String
  args : Option Arguments
  body : List Stmt
  returns : Option DataTypeInt
  is_async : Bool
  metadata : List (String × Bool)
  is_invariant : Bool
  process_kind : Option String
  sensitivity_list : List String

/-- `Field` from the zuspec IR (`ir.fields`) (named `IrField` here because
`Field` is taken by Mathlib).  Only integer types ever reach the `datatype`
slot in this core. -/
structure IrField where
  name : String
  datatype : DataTypeInt
deriving DecidableEq, Repr

/-- `DataTypeClass` from the zuspec IR (`ir.data_type`).  The base-class
slot is carried but never populated by this core. -/
structure DataTypeClass where
  name : String
  super : Option String
  fields : List IrField
  functions : List Function

/-! ## Foreign callable and class-member nodes -/

/-- The `returnType` object of a subroutine: the `hasattr`-guarded `isVoid`
attribute and the type itself. -/
structure SvRetType where
  isVoid : Option Bool
  type : SvType

/-- A pyslang subroutine symbol as read by `FunctionMapper.map_function`.
`arguments` carries the declared argument names in declaration order
(an argument with no `name` attribute appears as `"unnamed"`, matching the
source's fallback). -/
structure SvFunc where
  name : Option String
  subroutineKind : Option String
  returnType : Option SvRetType
  arguments : Option (List String)
  body : Option SvStmtSeq
  flags : Option String

/-- A symbol visited in a class's member scope, as classified by the
`str(symbol.kind)` checks of `_map_fields` and `map_functions_from_class`. -/
inductive SvClassMember where
  | classProperty (name : String) (type : SvType)
  | subroutine (f : SvFunc)
  | otherMember (kind : String)

/-- A pyslang `ClassType` symbol: its name and the symbols its scope visit
yields, in visit order. -/
structure SvClass where
  name : String
  members : List SvClassMember

/-! ## function_mapper.py -/

namespace FunctionMapper

/-- `FunctionMapper._map_return_type` from function_mapper.py: an integral
type goes through the type mapper (which may report an error); any other
type is skipped with a *warning*. -/
def map_return_type (config : SVToZuspecConfig) : SvType → Option DataTypeInt × List TranslationError
  | SvType.integral reprStr bitWidth isSigned _ =>
    TypeMapper.map_builtin_type config (extractTypeName reprStr)
      (some bitWidth) (some isSigned) none none none
  | SvType.other reprStr _ =>
    (none, [ErrorReporter.warning ("Unsupported return type: " ++ reprStr)
              none none none none none])

/-- `FunctionMapper._map_arguments` from function_mapper.py: every argument
becomes a positional name-only `Arg`; no diagnostics are appended. -/
def map_arguments (argNames : Option (List String)) : Option Arguments :=
  some { posonlyargs := [],
         args := (argNames.getD []).map (fun n => { arg := n, annotation := none }),
         vararg := none, kwonlyargs := [], kw_defaults := [], kwarg := none,
         defaults := [] }

/-- `FunctionMapper.map_function` from function_mapper.py. -/
def map_function (config : SVToZuspecConfig) (sv_func : SvFunc) :
    Option Function × List TranslationError :=
  let func_name := sv_func.name.getD "unknown"
  -- Check if it's a task (async) or function (sync): 'Task' in kind_str
  let is_async := match sv_func.subroutineKind with
                  | none => false
                  | some kind_str => pyInStr "Task" kind_str
  -- Map return type
  let retm : Option DataTypeInt × List TranslationError :=
    match sv_func.returnType with
    | none => (none, [])
    | some ret_type =>
      if ret_type.isVoid.getD false then (none, [])
      else map_return_type config ret_type.type
  -- Map arguments
  let args := map_arguments sv_func.arguments
  -- Map function body
  let bodym := match sv_func.body with
               | none => (([] : List Stmt), ([] : List TranslationError))
               | some s => StmtMapper.map_statements s
  -- Check for virtual modifier: 'Virtual' in flags_str
  let metadata := match sv_func.flags with
                  | none => ([] : List (String × Bool))
                  | some flags_str => if pyInStr "Virtual" flags_str then [("virtual", true)] else []
  (some { name := func_name, args := args, body := bodym.1, returns := retm.1,
          is_async := is_async, metadata := metadata, is_invariant := false,
          process_kind := none, sensitivity_list := [] },
   retm.2 ++ bodym.2)

/-- `FunctionMapper.map_functions_from_class` from function_mapper.py: the
scope visitor collecting every `SymbolKind.Subroutine` member's lowering. -/
def map_functions_from_class (config : SVToZuspecConfig) :
    List SvClassMember → List Function × List TranslationError
  | [] => ([], [])
  | SvClassMember.subroutine f :: rest =>
    let m := map_function config f
    let r := map_functions_from_class config rest
    ((match m.1 with | some fn => [fn] | none => []) ++ r.1, m.2 ++ r.2)
  | _ :: rest => map_functions_from_class config rest

end FunctionMapper

/-! ## class_mapper.py -/

namespace ClassMapper

/-- `ClassMapper._map_type` from class_mapper.py. -/
def map_type (config : SVToZuspecConfig) : SvType → Option DataTypeInt × List TranslationError
  | SvType.integral reprStr bitWidth isSigned _ =>
    TypeMapper.map_builtin_type config (extractTypeName reprStr)
      (some bitWidth) (some isSigned) none none none
  | SvType.other reprStr _ =>
    (none, [ErrorReporter.error ("Unsupported type: " ++ reprStr)
              none none none none none])

/-- `ClassMapper._map_property_field` from class_mapper.py: a four-state
field type is hard-rejected with an error; otherwise the declared type is
lowered and a `Field` produced. -/
def map_property_field (config : SVToZuspecConfig) (field_name : String)
    (var_type : SvType) : Option IrField × List TranslationError :=
  if var_type.isFourState then
    (none, [ErrorReporter.error ("Field \x27" ++ field_name ++ "\x27 uses 4-state type")
              none none none none (some "Use 2-state types (bit, int, byte, etc.)")])
  else
    let tm := map_type config var_type
    match tm.1 with
    | none => (none, tm.2)
    | some ir_type => (some { name := field_name, datatype := ir_type }, tm.2)

/-- `ClassMapper._map_fields` from class_mapper.py: the scope visitor
collecting every `SymbolKind.ClassProperty` member's lowering, skipping
members that fail. -/
def map_fields (config : SVToZuspecConfig) :
    List SvClassMember → List IrField × List TranslationError
  | [] => ([], [])
  | SvClassMember.classProperty n t :: rest =>
    let m := map_property_field config n t
    let r := map_fields config rest
    ((match m.1 with | some fl => [fl] | none => []) ++ r.1, m.2 ++ r.2)
  | _ :: rest => map_fields config rest

/-- `ClassMapper.map_class` from class_mapper.py: always produces a class
record named after the class, with an unset base-class slot, the fields its
scope yields, and the functions its scope yields. -/
def map_class (config : SVToZuspecConfig) (class_symbol : SvClass) :
    Option DataTypeClass × List TranslationError :=
  let fieldsm := map_fields config class_symbol.members
  let funcsm := FunctionMapper.map_functions_from_class config class_symbol.members
  (some { name := class_symbol.name, super := none,
          fields := fieldsm.1, functions := funcsm.1 },
   fieldsm.2 ++ funcsm.2)

end ClassMapper

/-! ## mapper.py (orchestrator) -/

/-- The orchestrator's mutable state: the accumulated result list and the
shared diagnostic log. -/
structure SVMapperState where
  classes : List DataTypeClass
  errors : List TranslationError

/-- The outcome of the external front end (pyslang), as consumed by
`SVMapper.map_text` / `map_files`: the diagnostics the front end reports
(merged into the log by `SVParser`) and the compilation root's class
symbols in tree-encounter order (`none` models a missing root). -/
structure ParseResult where
  frontDiags : List TranslationError
  root : Option (List SvClass)

namespace SVMapper

/-- The class-mapping loop of `SVMapper.map_text` / `map_files`: each class
is lowered independently and appended to the result list when produced. -/
def map_classes (config : SVToZuspecConfig) :
    List SvClass → List DataTypeClass × List TranslationError
  | [] => ([], [])
  | c :: rest =>
    let m := ClassMapper.map_class config c
    let r := map_classes config rest
    ((match m.1 with | some ir_class => [ir_class] | none => []) ++ r.1, m.2 ++ r.2)

/-- `SVMapper.map_text` from mapper.py.  `SVParser.parse_text` merges the
front end's diagnostics into the shared log and returns
`not self.error_reporter.has_errors()`; on parse failure `map_text` returns
`False` at once.  Otherwise the root's classes are lowered and the pass
result is `not self.error_reporter.has_errors()` over the final log. -/
def map_text (config : SVToZuspecConfig) (st : SVMapperState) (parse : ParseResult) :
    Bool × SVMapperState :=
  let afterParse := st.errors ++ parse.frontDiags
  if ErrorReporter.has_errors afterParse then
    (false, { classes := st.classes, errors := afterParse })
  else
    match parse.root with
    | none =>
      (false, { classes := st.classes,
                errors := afterParse ++
                  [ErrorReporter.error "Failed to get compilation root" none none none none none] })
    | some sv_classes =>
      let m := map_classes config sv_classes
      let final := afterParse ++ m.2
      (!(ErrorReporter.has_errors final), { classes := st.classes ++ m.1, errors := final })

/-- `SVMapper.map_files` from mapper.py: identical post-parse logic to
`map_text` (the source duplicates the walk verbatim, with
`SVParser.parse_files` as the parsing step). -/
def map_files (config : SVToZuspecConfig) (st : SVMapperState) (parse : ParseResult) :
    Bool × SVMapperState :=
  let afterParse := st.errors ++ parse.frontDiags
  if ErrorReporter.has_errors afterParse then
    (false, { classes := st.classes, errors := afterParse })
  else
    match parse.root with
    | none =>
      (false, { classes := st.classes,
                errors := afterParse ++
                  [ErrorReporter.error "Failed to get compilation root" none none none none none] })
    | some sv_classes =>
      let m := map_classes config sv_classes
      let final := afterParse ++ m.2
      (!(ErrorReporter.has_errors final), { classes := st.classes ++ m.1, errors := final })

end SVMapper

/-! ## Claims about the type mapper -/

/-- C1: For every type name whose lower-casing is in the four-state set
{logic, reg, integer} (any letter-casing), and for any width/signed
arguments, `map_builtin_type` returns `none` and appends exactly one
error-severity diagnostic whose message names the offending type and whose
suggestion names a two-state alternative; the rejection is independent of
the configuration (which is universally quantified). -/
theorem c1_four_state_rejected (config : SVToZuspecConfig) (type_name : String)
    (width : Option Nat) (signed : Option Bool) (file_path : Option String)
    (line column : Option Nat)
    (h : pyLower type_name = "logic" ∨ pyLower type_name = "reg" ∨
         pyLower type_name = "integer") :
    TypeMapper.map_builtin_type config type_name width signed file_path line column =
      (none,
       [{ severity := ErrorSeverity.ERROR,
          message := "4-state type \x27" ++ type_name ++ "\x27 not supported",
          file_path := file_path, line := line, column := column,
          context := some type_name,
          suggestion := some (TypeMapper.suggest_2state_replacement (pyLower type_name)) }])
    ∧ (TypeMapper.suggest_2state_replacement (pyLower type_name) = "Use 2-state type: bit" ∨
       TypeMapper.suggest_2state_replacement (pyLower type_name) = "Use 2-state type: int") := by
  rcases h with h | h | h <;>
    simp [TypeMapper.map_builtin_type, TypeMapper.suggest_2state_replacement,
      ErrorReporter.error, h]

/-- Witness for C1 at the concrete name "Logic". -/
theorem c1_four_state_rejected_witness :
    (pyLower "Logic" = "logic" ∨ pyLower "Logic" = "reg" ∨ pyLower "Logic" = "integer")
    ∧ (TypeMapper.map_builtin_type SVToZuspecConfig.default "Logic" none none none none none =
        (none,
         [{ severity := ErrorSeverity.ERROR,
            message := "4-state type \x27Logic\x27 not supported",
            file_path := none, line := none, column := none,
            context := some "Logic",
            suggestion := some (TypeMapper.suggest_2state_replacement (pyLower "Logic")) }])
       ∧ (TypeMapper.suggest_2state_replacement (pyLower "Logic") = "Use 2-state type: bit" ∨
          TypeMapper.suggest_2state_replacement (pyLower "Logic") = "Use 2-state type: int")) :=
  ⟨Or.inl (by decide),
   c1_four_state_rejected SVToZuspecConfig.default "Logic" none none none none none
     (Or.inl (by decide))⟩

/-- C2: the two-state rule table of `map_builtin_type`: `bit` gives a 1-bit
unsigned type unless explicit width/signed overrides are given; `byte`,
`shortint`, `int`, `longint` give the fixed signed widths 8/16/32/64 for any
width/signed arguments; all with no diagnostic.  Any name outside both the
two-state and four-state sets gives `none` plus exactly one
"Unsupported type" error. -/
theorem c2_two_state_table (config : SVToZuspecConfig) (type_name : String)
    (width : Option Nat) (signed : Option Bool) (file_path : Option String)
    (line column : Option Nat) :
    (pyLower type_name = "bit" →
      TypeMapper.map_builtin_type config type_name width signed file_path line column =
        (some { bits := width.getD 1, signed := signed.getD false }, []))
    ∧ (pyLower type_name = "byte" →
      TypeMapper.map_builtin_type config type_name width signed file_path line column =
        (some { bits := 8, signed := true }, []))
    ∧ (pyLower type_name = "shortint" →
      TypeMapper.map_builtin_type config type_name width signed file_path line column =
        (some { bits := 16, signed := true }, []))
    ∧ (pyLower type_name = "int" →
      TypeMapper.map_builtin_type config type_name width signed file_path line column =
        (some { bits := 32, signed := true }, []))
    ∧ (pyLower type_name = "longint" →
      TypeMapper.map_builtin_type config type_name width signed file_path line column =
        (some { bits := 64, signed := true }, []))
    ∧ (pyLower type_name ∉ ["logic", "reg", "integer", "bit", "byte", "shortint", "int", "longint"] →
      TypeMapper.map_builtin_type config type_name width signed file_path line column =
        (none,
         [{ severity := ErrorSeverity.ERROR,
            message := "Unsupported type \x27" ++ type_name ++ "\x27",
            file_path := file_path, line := line, column := column,
            context := none, suggestion := none }])) := by
  refine ⟨?_, ?_, ?_, ?_, ?_, ?_⟩ <;> intro h
  · simp [TypeMapper.map_builtin_type, ErrorReporter.error, h]
  · simp [TypeMapper.map_builtin_type, ErrorReporter.error, h]
  · simp [TypeMapper.map_builtin_type, ErrorReporter.error, h]
  · simp [TypeMapper.map_builtin_type, ErrorReporter.error, h]
  · simp [TypeMapper.map_builtin_type, ErrorReporter.error, h]
  · simp only [List.mem_cons, List.not_mem_nil, or_false, not_or] at h
    obtain ⟨h1, h2, h3, h4, h5, h6, h7, h8⟩ := h
    simp [TypeMapper.map_builtin_type, ErrorReporter.error, h1, h2, h3, h4, h5, h6, h7, h8]

/-- Witness for C2 at the concrete names "INT" (32-bit signed, no
diagnostic) and, through the last conjunct, "string" (unsupported). -/
theorem c2_two_state_table_witness :
    TypeMapper.map_builtin_type SVToZuspecConfig.default "INT" none none none none none =
      (some { bits := 32, signed := true }, []) :=
  (c2_two_state_table SVToZuspecConfig.default "INT" none none none none none).2.2.2.1
    (by decide)

/-! ## Claims about the expression mapper -/

/-- C5: a binary operation whose operator is one of the four case/wildcard
(in)equality operators lowers to `none` with exactly one error-severity
diagnostic naming the operator and suggesting the two-state equality
operators, for any operand expressions; every other arithmetic, bitwise,
shift and relational operator is mapped via the fixed operator table with no
diagnostic. -/
theorem c5_four_state_operators_rejected (op_str : String) (left right : SvExpr)
    (h : op_str = "BinaryOperator.CaseEquality" ∨ op_str = "BinaryOperator.CaseInequality" ∨
         op_str = "BinaryOperator.WildcardEquality" ∨ op_str = "BinaryOperator.WildcardInequality") :
    ExprMapper.map_expression (SvExpr.binaryOp (some op_str) left right) =
      (none,
       [{ severity := ErrorSeverity.ERROR,
          message := "4-state operator not supported: " ++ op_str,
          file_path := none, line := none, column := none, context := none,
          suggestion := some "Use 2-state operators (==, !=)" }])
    ∧ (ExprMapper.map_binary_operator "BinaryOperator.Add" = (some (ZBinOp.arith BinOp.Add), [])
       ∧ ExprMapper.map_binary_operator "BinaryOperator.Subtract" = (some (ZBinOp.arith BinOp.Sub), [])
       ∧ ExprMapper.map_binary_operator "BinaryOperator.Multiply" = (some (ZBinOp.arith BinOp.Mult), [])
       ∧ ExprMapper.map_binary_operator "BinaryOperator.Divide" = (some (ZBinOp.arith BinOp.Div), [])
       ∧ ExprMapper.map_binary_operator "BinaryOperator.Mod" = (some (ZBinOp.arith BinOp.Mod), [])
       ∧ ExprMapper.map_binary_operator "BinaryOperator.BinaryAnd" = (some (ZBinOp.arith BinOp.BitAnd), [])
       ∧ ExprMapper.map_binary_operator "BinaryOperator.BinaryOr" = (some (ZBinOp.arith BinOp.BitOr), [])
       ∧ ExprMapper.map_binary_operator "BinaryOperator.BinaryXor" = (some (ZBinOp.arith BinOp.BitXor), [])
       ∧ ExprMapper.map_binary_operator "BinaryOperator.LogicalShiftLeft" = (some (ZBinOp.arith BinOp.LShift), [])
       ∧ ExprMapper.map_binary_operator "BinaryOperator.LogicalShiftRight" = (some (ZBinOp.arith BinOp.RShift), [])
       ∧ ExprMapper.map_binary_operator "BinaryOperator.Equality" = (some (ZBinOp.cmp CmpOp.Eq), [])
       ∧ ExprMapper.map_binary_operator "BinaryOperator.Inequality" = (some (ZBinOp.cmp CmpOp.NotEq), [])
       ∧ ExprMapper.map_binary_operator "BinaryOperator.LessThan" = (some (ZBinOp.cmp CmpOp.Lt), [])
       ∧ ExprMapper.map_binary_operator "BinaryOperator.LessThanEqual" = (some (ZBinOp.cmp CmpOp.LtE), [])
       ∧ ExprMapper.map_binary_operator "BinaryOperator.GreaterThan" = (some (ZBinOp.cmp CmpOp.Gt), [])
       ∧ ExprMapper.map_binary_operator "BinaryOperator.GreaterThanEqual" = (some (ZBinOp.cmp CmpOp.GtE), [])) := by
  constructor
  · rcases h with h | h | h | h <;>
      simp [ExprMapper.map_expression, ErrorReporter.error, h]
  · exact ⟨rfl, rfl, rfl, rfl, rfl, rfl, rfl, rfl, rfl, rfl, rfl, rfl, rfl, rfl, rfl, rfl⟩

/-- Witness for C5 at the concrete operator `===` (case equality) applied to
two integer literals. -/
theorem c5_four_state_operators_rejected_witness :
    ExprMapper.map_expression (SvExpr.binaryOp (some "BinaryOperator.CaseEquality")
        (SvExpr.integerLiteral "1") (SvExpr.integerLiteral "2")) =
      (none,
       [{ severity := ErrorSeverity.ERROR,
          message := "4-state operator not supported: BinaryOperator.CaseEquality",
          file_path := none, line := none, column := none, context := none,
          suggestion := some "Use 2-state operators (==, !=)" }]) :=
  (c5_four_state_operators_rejected "BinaryOperator.CaseEquality"
    (SvExpr.integerLiteral "1") (SvExpr.integerLiteral "2") (Or.inl rfl)).1

/-- C6 counterexample: the claim "if any call argument fails to lower, the
whole call expression lowers to absent" is false.  The argument here fails
to lower (an unsupported expression kind), yet the call still lowers to a
call node with the failed argument silently dropped. -/
theorem c6_counterexample_call_skips_failed_arg :
    (ExprMapper.map_expression (SvExpr.otherExpr "ExpressionKind.Streaming")).1 = none
    ∧ (ExprMapper.map_expression (SvExpr.call (some "f")
        (SvExprList.cons (SvExpr.otherExpr "ExpressionKind.Streaming") SvExprList.nil))).1
      = some (Expr.ExprCall (Expr.ExprRefLocal "f") [])
    ∧ (ExprMapper.map_expression (SvExpr.call (some "f")
        (SvExprList.cons (SvExpr.otherExpr "ExpressionKind.Streaming") SvExprList.nil))).1
      ≠ none :=
  ⟨rfl, rfl, fun h => Option.noConfusion h⟩

/-- C6 (amended): member-access, subscript, binary and unary expressions
propagate absence of any required sub-expression; call expressions instead
always produce a call node whose argument list keeps exactly the
successfully lowered arguments, skipping failed ones. -/
theorem c6_absence_propagation :
    (∀ (value : SvExpr) (member : Option String),
       (ExprMapper.map_expression value).1 = none →
       (ExprMapper.map_expression (SvExpr.memberAccess value member)).1 = none)
    ∧ (∀ (value selector : SvExpr),
       (ExprMapper.map_expression value).1 = none ∨
         (ExprMapper.map_expression selector).1 = none →
       (ExprMapper.map_expression (SvExpr.elementSelect value selector)).1 = none)
    ∧ (∀ (op : Option String) (left right : SvExpr),
       (ExprMapper.map_expression left).1 = none ∨
         (ExprMapper.map_expression right).1 = none →
       (ExprMapper.map_expression (SvExpr.binaryOp op left right)).1 = none)
    ∧ (∀ (op : Option String) (operand : SvExpr),
       (ExprMapper.map_expression operand).1 = none →
       (ExprMapper.map_expression (SvExpr.unaryOp op operand)).1 = none)
    ∧ (∀ (subroutineName : Option String) (arguments : SvExprList),
       (ExprMapper.map_expression (SvExpr.call subroutineName arguments)).1 =
         some (Expr.ExprCall (Expr.ExprRefLocal (subroutineName.getD "unknown"))
                 (ExprMapper.map_call_args arguments).1)) := by
  refine ⟨?_, ?_, ?_, ?_, ?_⟩
  · intro value member h
    simp [ExprMapper.map_expression, h]
  · intro value selector h
    rcases h with h | h
    · simp [ExprMapper.map_expression, h]
    · cases hv : (ExprMapper.map_expression value).1 <;>
        simp [ExprMapper.map_expression, hv, h]
  · intro op left right h
    cases op with
    | none => simp [ExprMapper.map_expression]
    | some s =>
      simp only [ExprMapper.map_expression]
      split
      · rfl
      · rcases hmb : ExprMapper.map_binary_operator s with ⟨zo, d⟩
        cases zo with
        | none => simp [hmb]
        | some z =>
          rcases h with h | h
          · cases hr : (ExprMapper.map_expression right).1 <;> simp [hmb, h, hr]
          · cases hl : (ExprMapper.map_expression left).1 <;> simp [hmb, h, hl]
  · intro op operand h
    cases op with
    | none => simp [ExprMapper.map_expression]
    | some s =>
      simp only [ExprMapper.map_expression]
      split
      · rfl
      · rcases hmu : ExprMapper.map_unary_operator ((some s).getD "") with ⟨zo, d⟩
        cases zo with
        | none => simp [hmu]
        | some z => simp [hmu, h]
  · intro subroutineName arguments
    simp [ExprMapper.map_expression]

/-- Witness for C6 (amended) at a concrete failing operand under a unary
minus. -/
theorem c6_absence_propagation_witness :
    (ExprMapper.map_expression (SvExpr.otherExpr "ExpressionKind.Inside")).1 = none
    ∧ (ExprMapper.map_expression (SvExpr.unaryOp (some "UnaryOperator.Minus")
        (SvExpr.otherExpr "ExpressionKind.Inside"))).1 = none :=
  ⟨rfl, c6_absence_propagation.2.2.2.1 (some "UnaryOperator.Minus")
    (SvExpr.otherExpr "ExpressionKind.Inside") rfl⟩

/-! ## Claims about the statement mapper -/

/-- C8: lowering a sequence of statement nodes returns a single ordered list
in which each input statement's result appears in input order, a list result
is flattened in place, and an absent result is skipped without aborting the
rest of the sequence. -/
theorem c8_statement_sequence_flattening : (seq : SvStmtSeq) →
    (StmtMapper.map_statements seq).1 =
      (seq.toList.map (fun s =>
        match (StmtMapper.map_statement s).1 with
        | none => []
        | some (Sum.inl st) => [st]
        | some (Sum.inr l) => l)).flatten
  | SvStmtSeq.nil => rfl
  | SvStmtSeq.cons h t => by
    have ih := c8_statement_sequence_flattening t
    simp only [StmtMapper.map_statements, SvStmtSeq.toList, List.map_cons, List.flatten_cons, ih]

/-- C9: lowering a for-loop statement always yields a for-loop IR node whose
loop variable is the fixed placeholder reference "i" and whose iterable is
the fixed placeholder reference "range", for every loop header, while the
body is lowered through the normal statement-sequence lowering. -/
theorem c9_for_loop_placeholder (header : String) (body : Option SvStmtSeq) :
    StmtMapper.map_statement (SvStmt.forLoop header body) =
      (some (Sum.inl (Stmt.StmtFor (Expr.ExprRefLocal "i") (Expr.ExprRefLocal "range")
         (match body with
          | none => []
          | some s => (StmtMapper.map_statements s).1) [])),
       (match body with
        | none => []
        | some s => (StmtMapper.map_statements s).2)) := by
  cases body <;> rfl

/-! ## Claims about the function mapper -/

/-- C7 counterexample: the claim "a return type Type Lowering cannot
classify appends only a warning-severity diagnostic (never an error)" is
false.  The integral return type `mytype` cannot be classified by the type
mapper (it returns absent), yet lowering the function appends an
error-severity diagnostic, not a warning. -/
theorem c7_counterexample_integral_return_error :
    (TypeMapper.map_builtin_type SVToZuspecConfig.default "mytype" (some 4) (some false)
        none none none).1 = none
    ∧ (FunctionMapper.map_function SVToZuspecConfig.default
        { name := some "f", subroutineKind := some "SubroutineKind.Function",
          returnType := some { isVoid := some false,
                               type := SvType.integral "mytype" 4 false false },
          arguments := some [], body := none, flags := none }).2
      = [{ severity := ErrorSeverity.ERROR,
           message := "Unsupported type \x27mytype\x27",
           file_path := none, line := none, column := none,
           context := none, suggestion := none }]
    ∧ ErrorSeverity.ERROR ≠ ErrorSeverity.WARNING :=
  ⟨rfl, rfl, by decide⟩

/-- C7 (amended): only a *non-integral* return type is reported as a single
warning; an integral return type is delegated to Type Lowering, whose
diagnostics (errors for four-state or unknown names) are appended verbatim.
In every case the function record is still produced — never dropped — with
an absent return type whenever return-type lowering failed. -/
theorem c7_return_type_soft_warning (config : SVToZuspecConfig)
    (name kind flags : Option String) (argNames : Option (List String))
    (reprStr : String) (fourState : Bool) (t : SvType) :
    (FunctionMapper.map_return_type config (SvType.other reprStr fourState) =
      (none,
       [{ severity := ErrorSeverity.WARNING,
          message := "Unsupported return type: " ++ reprStr,
          file_path := none, line := none, column := none,
          context := none, suggestion := none }]))
    ∧ (FunctionMapper.map_function config
        { name := name, subroutineKind := kind,
          returnType := some { isVoid := some false, type := t },
          arguments := argNames, body := none, flags := flags }
      = (some { name := name.getD "unknown",
                args := FunctionMapper.map_arguments argNames,
                body := [],
                returns := (FunctionMapper.map_return_type config t).1,
                is_async := (match kind with
                             | none => false
                             | some kind_str => pyInStr "Task" kind_str),
                metadata := (match flags with
                             | none => []
                             | some flags_str =>
                               if pyInStr "Virtual" flags_str then [("virtual", true)] else []),
                is_invariant := false, process_kind := none, sensitivity_list := [] },
         (FunctionMapper.map_return_type config t).2)) := by
  constructor
  · rfl
  · simp [FunctionMapper.map_function]

/-! ## Lemmas about the diagnostic log -/

/-- The error predicate distributes over concatenated log segments. -/
theorem has_errors_append (a b : List TranslationError) :
    ErrorReporter.has_errors (a ++ b) =
      (ErrorReporter.has_errors a || ErrorReporter.has_errors b) := by
  simp [ErrorReporter.has_errors]

/-- A log containing an error-severity entry satisfies the error predicate. -/
theorem has_errors_of_mem {l : List TranslationError} {e : TranslationError}
    (he : e ∈ l) (hs : e.severity = ErrorSeverity.ERROR) :
    ErrorReporter.has_errors l = true := by
  simp only [ErrorReporter.has_errors, List.any_eq_true, decide_eq_true_eq]
  exact ⟨e, he, hs⟩

/-! ## Claims about the diagnostic log and the orchestrator -/

/-- C4: `has_errors` holds exactly when some error-severity diagnostic is in
the log (warnings alone never trigger it), and the orchestrator's pass-level
result is exactly the negation of `has_errors` over the final log, on every
branch and independently of how many classes were produced. -/
theorem c4_success_iff_no_errors :
    (∀ l : List TranslationError,
       ErrorReporter.has_errors l = true ↔ ∃ e ∈ l, e.severity = ErrorSeverity.ERROR)
    ∧ (∀ (config : SVToZuspecConfig) (st : SVMapperState) (parse : ParseResult),
       (SVMapper.map_text config st parse).1 =
         !(ErrorReporter.has_errors (SVMapper.map_text config st parse).2.errors)) := by
  constructor
  · intro l
    simp [ErrorReporter.has_errors, List.any_eq_true]
  · intro config st parse
    by_cases hpe : ErrorReporter.has_errors (st.errors ++ parse.frontDiags)
    · simp [SVMapper.map_text, hpe]
    · cases hroot : parse.root with
      | none =>
        simp only [SVMapper.map_text, hroot, if_neg hpe]
        simp [has_errors_append, ErrorReporter.has_errors, ErrorReporter.error]
      | some sv_classes =>
        simp [SVMapper.map_text, hpe, hroot]

/-- C10: the orchestrator's result list and diagnostic log only ever grow
(`map_text` and `map_files` append, never remove), a pass started with prior
errors in the log reports failure, and only `clear` empties the log. -/
theorem c10_monotonic_accumulation :
    (∀ (config : SVToZuspecConfig) (st : SVMapperState) (parse : ParseResult),
       ∃ (newClasses : List DataTypeClass) (newErrors : List TranslationError),
         (SVMapper.map_text config st parse).2.classes = st.classes ++ newClasses
         ∧ (SVMapper.map_text config st parse).2.errors = st.errors ++ newErrors)
    ∧ (∀ (config : SVToZuspecConfig) (st : SVMapperState) (parse : ParseResult),
       ∃ (newClasses : List DataTypeClass) (newErrors : List TranslationError),
         (SVMapper.map_files config st parse).2.classes = st.classes ++ newClasses
         ∧ (SVMapper.map_files config st parse).2.errors = st.errors ++ newErrors)
    ∧ (∀ (config : SVToZuspecConfig) (st : SVMapperState) (parse : ParseResult),
       ErrorReporter.has_errors st.errors = true →
         (SVMapper.map_text config st parse).1 = false
         ∧ (SVMapper.map_files config st parse).1 = false)
    ∧ (∀ l : List TranslationError, ErrorReporter.clear l = []) := by
  have hgrow : ∀ (config : SVToZuspecConfig) (st : SVMapperState) (parse : ParseResult),
      ∃ (newClasses : List DataTypeClass) (newErrors : List TranslationError),
        (SVMapper.map_text config st parse).2.classes = st.classes ++ newClasses
        ∧ (SVMapper.map_text config st parse).2.errors = st.errors ++ newErrors := by
    intro config st parse
    by_cases hpe : ErrorReporter.has_errors (st.errors ++ parse.frontDiags)
    · exact ⟨[], parse.frontDiags, by simp [SVMapper.map_text, hpe]⟩
    · cases hroot : parse.root with
      | none =>
        refine ⟨[], parse.frontDiags ++
          [ErrorReporter.error "Failed to get compilation root" none none none none none],
          by simp [SVMapper.map_text, hpe, hroot]⟩
      | some sv_classes =>
        refine ⟨(SVMapper.map_classes config sv_classes).1,
          parse.frontDiags ++ (SVMapper.map_classes config sv_classes).2,
          by simp [SVMapper.map_text, hpe, hroot]⟩
  have hfiles_eq : ∀ (config : SVToZuspecConfig) (st : SVMapperState) (parse : ParseResult),
      SVMapper.map_files config st parse = SVMapper.map_text config st parse := by
    intro config st parse
    rfl
  have hprior : ∀ (config : SVToZuspecConfig) (st : SVMapperState) (parse : ParseResult),
      ErrorReporter.has_errors st.errors = true →
        (SVMapper.map_text config st parse).1 = false := by
    intro config st parse h
    have hpe : ErrorReporter.has_errors (st.errors ++ parse.frontDiags) = true := by
      simp [has_errors_append, h]
    simp [SVMapper.map_text, hpe]
  refine ⟨hgrow, ?_, ?_, fun _ => rfl⟩
  · intro config st parse
    rw [hfiles_eq]
    exact hgrow config st parse
  · intro config st parse h
    exact ⟨hprior config st parse h, by rw [hfiles_eq]; exact hprior config st parse h⟩

/-- Witness for C10: a pass started on an instance whose log already holds
an error reports failure even over an empty, error-free input. -/
theorem c10_monotonic_accumulation_witness :
    ErrorReporter.has_errors
        [ErrorReporter.error "prior" none none none none none] = true
    ∧ (SVMapper.map_text SVToZuspecConfig.default
        { classes := [], errors := [ErrorReporter.error "prior" none none none none none] }
        { frontDiags := [], root := some [] }).1 = false :=
  ⟨rfl,
   (c10_monotonic_accumulation.2.2.1 SVToZuspecConfig.default
     { classes := [], errors := [ErrorReporter.error "prior" none none none none none] }
     { frontDiags := [], root := some [] } rfl).1⟩

/-! ## Lemmas about class lowering -/

/-- The fields a class lowers to are exactly the per-property lowering
results of its `ClassProperty` members, in order, with failed members
contributing nothing. -/
theorem map_fields_eq_filterMap (config : SVToZuspecConfig) :
    ∀ members : List SvClassMember,
      (ClassMapper.map_fields config members).1 = members.filterMap (fun m =>
        match m with
        | SvClassMember.classProperty fn ft => (ClassMapper.map_property_field config fn ft).1
        | _ => none)
  | [] => rfl
  | SvClassMember.classProperty fn ft :: rest => by
    have ih := map_fields_eq_filterMap config rest
    cases hm : (ClassMapper.map_property_field config fn ft).1 <;>
      simp [ClassMapper.map_fields, List.filterMap_cons, hm, ih]
  | SvClassMember.subroutine f :: rest => by
    have ih := map_fields_eq_filterMap config rest
    simp [ClassMapper.map_fields, List.filterMap_cons, ih]
  | SvClassMember.otherMember k :: rest => by
    have ih := map_fields_eq_filterMap config rest
    simp [ClassMapper.map_fields, List.filterMap_cons, ih]

/-- Diagnostics appended while lowering one property of a scope are in the
diagnostics of lowering the whole scope's fields. -/
theorem mem_map_fields_diags (config : SVToZuspecConfig) {n : String} {t : SvType}
    {e : TranslationError} :
    ∀ members : List SvClassMember, SvClassMember.classProperty n t ∈ members →
      e ∈ (ClassMapper.map_property_field config n t).2 →
      e ∈ (ClassMapper.map_fields config members).2
  | [], hmem, _ => absurd hmem (List.not_mem_nil _)
  | m :: rest, hmem, he => by
    rcases List.mem_cons.mp hmem with hhead | htail
    · cases hhead
      simp only [ClassMapper.map_fields]
      exact List.mem_append_left _ he
    · have ih := mem_map_fields_diags config rest htail he
      cases m with
      | classProperty fn ft =>
        simp only [ClassMapper.map_fields]
        exact List.mem_append_right _ ih
      | subroutine f => simpa [ClassMapper.map_fields] using ih
      | otherMember k => simpa [ClassMapper.map_fields] using ih

/-- Diagnostics appended while lowering one class are in the diagnostics of
the orchestrator's class-mapping loop over any list containing it. -/
theorem mem_map_classes_diags (config : SVToZuspecConfig) {cls : SvClass}
    {e : TranslationError} :
    ∀ classes : List SvClass, cls ∈ classes →
      e ∈ (ClassMapper.map_class config cls).2 →
      e ∈ (SVMapper.map_classes config classes).2
  | [], hmem, _ => absurd hmem (List.not_mem_nil _)
  | c :: rest, hmem, he => by
    rcases List.mem_cons.mp hmem with hhead | htail
    · cases hhead
      simp only [SVMapper.map_classes]
      exact List.mem_append_left _ he
    · have ih := mem_map_classes_diags config rest htail he
      simp only [SVMapper.map_classes]
      exact List.mem_append_right _ ih

/-- C3: lowering a class whose member scope holds a field of four-state type
still produces a class record (class lowering in fact always produces one),
the four-state field is absent from the produced field list (the field list
is exactly the successful per-property results), an error-severity
diagnostic is recorded, and the pass-level success result of a pass whose
input contains that class is `false`. -/
theorem c3_four_state_field_dropped (config : SVToZuspecConfig)
    (st : SVMapperState) (front : List TranslationError)
    (classes : List SvClass) (cls : SvClass) (n : String) (t : SvType)
    (hcls : cls ∈ classes)
    (hmem : SvClassMember.classProperty n t ∈ cls.members)
    (hfs : t.isFourState = true) :
    (∀ cls' : SvClass, (ClassMapper.map_class config cls').1.isSome = true)
    ∧ (∀ c, (ClassMapper.map_class config cls).1 = some c →
        c.fields = cls.members.filterMap (fun m =>
          match m with
          | SvClassMember.classProperty fn ft => (ClassMapper.map_property_field config fn ft).1
          | _ => none))
    ∧ (ClassMapper.map_property_field config n t).1 = none
    ∧ (∃ e ∈ (ClassMapper.map_class config cls).2, e.severity = ErrorSeverity.ERROR)
    ∧ (SVMapper.map_text config st { frontDiags := front, root := some classes }).1 = false := by
  have hpf : ClassMapper.map_property_field config n t =
      (none, [ErrorReporter.error ("Field \x27" ++ n ++ "\x27 uses 4-state type")
                none none none none (some "Use 2-state types (bit, int, byte, etc.)")]) := by
    simp [ClassMapper.map_property_field, hfs]
  have he0 : ErrorReporter.error ("Field \x27" ++ n ++ "\x27 uses 4-state type")
      none none none none (some "Use 2-state types (bit, int, byte, etc.)")
      ∈ (ClassMapper.map_class config cls).2 :=
    List.mem_append_left _
      (mem_map_fields_diags config cls.members hmem (by rw [hpf]; exact List.mem_singleton.mpr rfl))
  refine ⟨fun cls' => rfl, ?_, ?_, ⟨_, he0, rfl⟩, ?_⟩
  · intro c hc
    have : c = { name := cls.name, super := none,
                 fields := (ClassMapper.map_fields config cls.members).1,
                 functions := (FunctionMapper.map_functions_from_class config cls.members).1 } :=
      Option.some.inj hc.symm
    rw [this]
    exact map_fields_eq_filterMap config cls.members
  · rw [hpf]
  · by_cases hpe : ErrorReporter.has_errors (st.errors ++ front)
    · simp [SVMapper.map_text, hpe]
    · have hcl : ErrorReporter.error ("Field \x27" ++ n ++ "\x27 uses 4-state type")
          none none none none (some "Use 2-state types (bit, int, byte, etc.)")
          ∈ (SVMapper.map_classes config classes).2 :=
        mem_map_classes_diags config classes hcls he0
      have hhe : ErrorReporter.has_errors (SVMapper.map_classes config classes).2 = true :=
        has_errors_of_mem hcl rfl
      simp [SVMapper.map_text, hpe, has_errors_append, hhe]

/-- Witness for C3 at a concrete one-field class whose field type is the
four-state `logic`. -/
theorem c3_four_state_field_dropped_witness :
    (SVMapper.map_text SVToZuspecConfig.default { classes := [], errors := [] }
      { frontDiags := [],
        root := some [{ name := "C",
                        members := [SvClassMember.classProperty "x"
                          (SvType.integral "logic" 1 false true)] }] }).1 = false :=
  (c3_four_state_field_dropped SVToZuspecConfig.default { classes := [], errors := [] } []
    [{ name := "C",
       members := [SvClassMember.classProperty "x" (SvType.integral "logic" 1 false true)] }]
    { name := "C",
      members := [SvClassMember.classProperty "x" (SvType.integral "logic" 1 false true)] }
    "x" (SvType.integral "logic" 1 false true)
    (List.mem_singleton.mpr rfl) (List.mem_singleton.mpr rfl) rfl).2.2.2.2
